import Mathlib

/-!
Verification development for the parameter-binding and access-conflict layer
of `bevy_ecs` (`crates/bevy_ecs/src/system/system_param.rs`).

Machine integers of the source (dense component ids, archetype component ids,
ticks) are modelled as `Nat`.  Rust panics are modelled as the `Except.error`
branch of an explicit result type; the error value carries both the panic
message and the `SystemMeta` as it stood at the moment of the panic, so that
atomicity of registration on failure is observable.
-/

namespace BevyEcs

/-- Dense integer identifying one component type within the store. -/
abbrev ComponentId := Nat

/-- Monotonic change-counter value (`Tick`). -/
abbrev Tick := Nat

/-- Modelled from the spec: `Access<T>` (the file `bevy_ecs/src/query/access.rs`
is not part of the excerpt).  An access declaration is a pair of sets of
identifiers — those read or written, and those written — plus the universal
read-all / write-all markers.  Spec invariant: write access to `X` implies
read access to `X` is also recorded (`writes ⊆ reads_and_writes` in intended
uses). -/
structure Access where
  reads_and_writes : List Nat
  writes : List Nat
  reads_all : Bool
  writes_all : Bool
deriving Repr, DecidableEq

namespace Access

/-- The empty access declaration (`Access::default()`). -/
def default : Access := ⟨[], [], false, false⟩

/-- Whether nothing at all is declared. -/
def is_empty_decl (a : Access) : Bool :=
  a.reads_and_writes.isEmpty && a.writes.isEmpty && !a.reads_all && !a.writes_all

/-- Whether some concrete identifier (not a universal marker) is declared. -/
def has_concrete (a : Access) : Bool :=
  !a.reads_and_writes.isEmpty || !a.writes.isEmpty

/-- `Access::read_all`: record the universal read marker. -/
def read_all (a : Access) : Access := { a with reads_all := true }

/-- Disjointness of two identifier lists. -/
def listDisjoint (xs ys : List Nat) : Bool :=
  xs.all (fun x => !ys.contains x)

/-- Modelled from the spec: `Access::is_compatible`.  Rule of the spec:
read-all / write-all declarations are compatible only with an empty
declaration; otherwise two declarations are compatible when neither writes
an identifier the other reads or writes. -/
def is_compatible (a b : Access) : Bool :=
  if a.reads_all || a.writes_all then b.is_empty_decl
  else if b.reads_all || b.writes_all then a.is_empty_decl
  else
    listDisjoint a.writes b.reads_and_writes &&
    listDisjoint b.writes a.reads_and_writes

/-- Modelled from the spec: `Access::get_conflicts` — the set of overlapping
identifiers where at least one side is a write.  A universal marker on one
side conflicts with everything the other side declares concretely. -/
def get_conflicts (a b : Access) : List Nat :=
  if a.reads_all || a.writes_all then b.reads_and_writes ++ b.writes
  else if b.reads_all || b.writes_all then a.reads_and_writes ++ a.writes
  else
    a.writes.filter (fun x => b.reads_and_writes.contains x) ++
    b.writes.filter (fun x => a.reads_and_writes.contains x)

/-- Modelled from the spec: `Access::extend` — union of two declarations. -/
def extend (a b : Access) : Access :=
  { reads_and_writes := a.reads_and_writes ++ b.reads_and_writes
    writes := a.writes ++ b.writes
    reads_all := a.reads_all || b.reads_all
    writes_all := a.writes_all || b.writes_all }

end Access

/-- Modelled from the spec: one `with`/`without` filter clause of a filtered
access (`AccessFilters` in `bevy_ecs/src/query/access.rs`, not part of the
excerpt).  A query whose filter requires a marker component and a query whose
filter excludes it match disjoint archetype sets. -/
structure AccessFilters where
  with_ids : List ComponentId
  without_ids : List ComponentId
deriving Repr, DecidableEq

namespace AccessFilters

/-- The unconstrained filter clause. -/
def default : AccessFilters := ⟨[], []⟩

/-- Modelled from the spec: two filter clauses rule each other out when one
requires a component the other excludes — the matched archetype sets are
then disjoint, so no storage location is shared. -/
def is_ruled_out_by (a b : AccessFilters) : Bool :=
  !Access.listDisjoint a.with_ids b.without_ids ||
  !Access.listDisjoint a.without_ids b.with_ids

end AccessFilters

/-- Modelled from the spec: `FilteredAccess<ComponentId>` (not part of the
excerpt) — a component-level access declaration together with the filter
clauses describing which archetypes the declaration applies to. -/
structure FilteredAccess where
  access : Access
  filter_sets : List AccessFilters
deriving Repr, DecidableEq

namespace FilteredAccess

/-- `FilteredAccess::default()`: empty access, one unconstrained clause. -/
def default : FilteredAccess := ⟨Access.default, [AccessFilters.default]⟩

/-- `FilteredAccess::read_all` — record the universal read marker. -/
def read_all (fa : FilteredAccess) : FilteredAccess :=
  { fa with access := fa.access.read_all }

/-- Modelled from the spec: two filtered accesses are compatible when their
accesses do not conflict, or when every pair of filter clauses rules the
other out (disjoint archetype sets cannot race). -/
def is_compatible (a b : FilteredAccess) : Bool :=
  a.access.is_compatible b.access ||
  a.filter_sets.all (fun fa =>
    b.filter_sets.all (fun fb => fa.is_ruled_out_by fb))

/-- Modelled from the spec: the conflicting component identifiers between two
filtered accesses — empty when compatible. -/
def get_conflicts (a b : FilteredAccess) : List ComponentId :=
  if a.is_compatible b then [] else a.access.get_conflicts b.access

end FilteredAccess

/-- Modelled from the spec: `FilteredAccessSet<ComponentId>` (not part of the
excerpt) — the append-only accumulator of all filtered accesses registered so
far on a system, with their combined access. -/
structure FilteredAccessSet where
  combined_access : Access
  filtered_accesses : List FilteredAccess
deriving Repr, DecidableEq

namespace FilteredAccessSet

/-- The empty accumulator. -/
def default : FilteredAccessSet := ⟨Access.default, []⟩

/-- Modelled from the spec: conflicts of a candidate declaration against the
accumulated declarations — the union of its pairwise conflicts with each
registered filtered access. -/
def get_conflicts_single (s : FilteredAccessSet) (current : FilteredAccess) :
    List ComponentId :=
  s.filtered_accesses.foldr
    (fun fa acc => fa.get_conflicts current ++ acc) []

/-- Modelled from the spec: `FilteredAccessSet::add` — append a filtered
access and fold its access into the combined access. -/
def add (s : FilteredAccessSet) (fa : FilteredAccess) : FilteredAccessSet :=
  { combined_access := s.combined_access.extend fa.access
    filtered_accesses := s.filtered_accesses ++ [fa] }

end FilteredAccessSet

/-- The store, as far as this layer observes it: the component-info registry
mapping a `ComponentId` to the component's name
(`world.components.get_info(id).unwrap().name()`). -/
structure World where
  componentName : ComponentId → String

/-- Per-system accumulator (`SystemMeta`): declared component access,
declared archetype-component access, display name, last-run tick. -/
structure SystemMeta where
  name : String
  component_access_set : FilteredAccessSet
  archetype_component_access : Access
  last_run : Tick

namespace SystemMeta

/-- A freshly created `SystemMeta` for a system with the given name. -/
def new (name : String) : SystemMeta :=
  ⟨name, FilteredAccessSet.default, Access.default, 0⟩

end SystemMeta

/-- The state of a `Query` parameter (`QueryState<Q, F>`), as produced by the
query-matching engine (`QueryState::new`, out of scope): its component-level
filtered access and its archetype-component access. -/
structure QueryState where
  component_access : FilteredAccess
  archetype_component_access : Access

/-- `Vec::join(", ")` on a list of names. -/
def joinComma : List String → String
  | [] => ""
  | [x] => x
  | x :: y :: ys => x ++ ", " ++ joinComma (y :: ys)

/-- The `error[B0001]` panic message format of
`assert_component_access_compatibility`. -/
def queryConflictMsg (query_type filter_type system_name accesses : String) :
    String :=
  "error[B0001]: Query<" ++ query_type ++ ", " ++ filter_type ++
    "> in system " ++ system_name ++ " accesses component(s) " ++ accesses ++
    " in a way that conflicts with a previous system parameter. Consider using `Without<T>` to create disjoint Queries or merging conflicting Queries into a `ParamSet`."

/-- `assert_component_access_compatibility` from the source: compute the
conflicts of the candidate query access against the accumulated system
access; `none` when empty, otherwise `some` panic message naming the
conflicting components, the query and filter type names and the system name,
with the `Without` / `ParamSet` remediation hint. -/
def assert_component_access_compatibility (system_name : String)
    (query_type : String) (filter_type : String)
    (system_access : FilteredAccessSet) (current : FilteredAccess)
    (world : World) : Option String :=
  let conflicts := system_access.get_conflicts_single current
  if conflicts.isEmpty then none
  else
    let conflicting_components := conflicts.map world.componentName
    let accesses := joinComma conflicting_components
    some (queryConflictMsg query_type filter_type system_name accesses)

/-- `<Query as SystemParam>::init_state` from the source.  `state` is the
result of `QueryState::new(world)` (the query-matching engine is an external
collaborator).  On conflict the panic is modelled as an error carrying the
message and the `SystemMeta` as it stood at the panic; on success the state
is returned and the system metadata is extended with the query's component
and archetype-component access. -/
def Query.init_state (world : World) (system_meta : SystemMeta)
    (query_type : String) (filter_type : String) (state : QueryState) :
    Except (String × SystemMeta) (QueryState × SystemMeta) :=
  match assert_component_access_compatibility system_meta.name query_type
      filter_type system_meta.component_access_set state.component_access
      world with
  | some msg => .error (msg, system_meta)
  | none =>
    .ok (state,
      { system_meta with
        component_access_set :=
          system_meta.component_access_set.add state.component_access
        archetype_component_access :=
          system_meta.archetype_component_access.extend
            state.archetype_component_access })

/-- The panic message of `<&World as SystemParam>::init_state`. -/
def worldConflictMsg : String :=
  "&World conflicts with a previous mutable system parameter. Allowing this would break Rust\x27s mutability rules"

/-- `<&World as SystemParam>::init_state` from the source: declare the
universal read marker on the archetype-component access and on the
component access set, panicking (modelled as `.error`) if either is
incompatible with what the system has already declared.  The world argument
is unused by the source. -/
def WorldParam.init_state (system_meta : SystemMeta) :
    Except (String × SystemMeta) SystemMeta :=
  let access := Access.default.read_all
  if !(system_meta.archetype_component_access.is_compatible access) then
    .error (worldConflictMsg, system_meta)
  else
    let meta1 := { system_meta with
      archetype_component_access :=
        system_meta.archetype_component_access.extend access }
    let filtered_access := FilteredAccess.default.read_all
    if !(meta1.component_access_set.get_conflicts_single
        filtered_access).isEmpty then
      .error (worldConflictMsg, meta1)
    else
      .ok { meta1 with
        component_access_set :=
          meta1.component_access_set.add filtered_access }

/-- `<Local as SystemParam>::init_state`: the per-system private state is
`T::from_world(world)` (the constructed initial value is passed in
explicitly); nothing is registered on the system metadata. -/
def Local.init_state {α : Type} (fromWorld : α) : α := fromWorld

/-- `<Local as SystemParam>::get_param`: hands out the system's own private
state; the source ignores its world and tick arguments. -/
def Local.get_param {α : Type} (state : α) : α := state

/-- Two systems, each owning its own `Local` state of the same value type.
Per the data model, parameter state is owned exclusively by the declaring
system. -/
structure TwoSystemLocals (α : Type) where
  x_state : α
  y_state : α

/-- Run system X: its body receives X's local through `Local.get_param` and
the value it leaves behind is stored back into X's state only. -/
def runSystemX {α : Type} (body : α → α) (s : TwoSystemLocals α) :
    TwoSystemLocals α :=
  { s with x_state := body (Local.get_param s.x_state) }

/-- Run system Y: same as `runSystemX` but over Y's own state. -/
def runSystemY {α : Type} (body : α → α) (s : TwoSystemLocals α) :
    TwoSystemLocals α :=
  { s with y_state := body (Local.get_param s.y_state) }

/-- `<Deferred as SystemParam>::get_param`: hands out the private buffer
state for queuing; the source ignores its world and tick arguments, so no
world data can be touched during materialization. -/
def Deferred.get_param {β : Type} (state : β) : β := state

/-- `<Deferred as SystemParam>::apply`: delegates to `SystemBuffer::apply` on
the private state with exclusive world access.  The buffer's `apply`
(modelled as an explicit function, since implementors live outside the
excerpt) may mutate both the buffer and the store. -/
def Deferred.applyParam {β σ : Type} (bufferApply : β → σ → β × σ)
    (state : β) (store : σ) : β × σ :=
  bufferApply state store

/-- One run of a system that queues mutations through its `Deferred`
parameter: the body transforms the buffer obtained from
`Deferred.get_param`; the store is returned untouched because `get_param`
gives the system no path into it. -/
def Deferred.runQueue {β σ : Type} (body : β → β) (state : β) (store : σ) :
    β × σ :=
  (body (Deferred.get_param state), store)

/-- Modelled from the spec: a deferred buffer is "a queued list of pending
mutations, ... flushed (mutating the shared store under exclusive access)
..., then cleared".  The canonical `SystemBuffer` implementor (`Commands`)
is outside the excerpt. -/
abbrev CommandBuffer (σ : Type) : Type := List (σ → σ)

/-- Modelled from the spec: flushing the buffer applies every queued
mutation to the store in order and clears the buffer. -/
def CommandBuffer.flush {σ : Type} (buf : CommandBuffer σ) (store : σ) :
    CommandBuffer σ × σ :=
  ([], buf.foldl (fun st m => m st) store)

/-- The `SystemChangeTick` value: the previous and current change ticks of
the system. -/
structure SystemChangeTick where
  last_run : Tick
  this_run : Tick
deriving Repr, DecidableEq

/-- `<SystemChangeTick as SystemParam>::get_param` from the source: copies
`system_meta.last_run` and the supplied current `change_tick`. -/
def SystemChangeTick.get_param (system_meta : SystemMeta)
    (change_tick : Tick) : SystemChangeTick :=
  { last_run := system_meta.last_run, this_run := change_tick }

/-- The `SystemParam` protocol, abstracted over the world type `ω`, the
state type `σ` and the materialized value type `V`: registration may panic
(modelled as `.error`) and mutates world and metadata; `new_archetype`
(archetypes modelled by their index) mutates state and metadata; `apply`
mutates state and world under an immutable metadata; `get_param` reads
state, metadata, world and tick to produce the value. -/
structure ParamKind (ω σ V : Type) where
  init_state : ω → SystemMeta → Except String (σ × ω × SystemMeta)
  new_archetype : σ → Nat → SystemMeta → σ × SystemMeta
  applyBuf : σ → SystemMeta → ω → σ × ω
  get_param : σ → SystemMeta → ω → Tick → V

namespace ParamKind

/-- `impl_system_param_tuple`, `init_state`: evaluate each member's
`init_state` left to right in declaration order, threading the world and
the shared metadata accumulator; the first member that panics aborts the
whole registration (homogeneous-list model of the 0..16 tuple impls). -/
def tupleInit {ω σ V : Type} :
    List (ParamKind ω σ V) → ω → SystemMeta →
      Except String (List σ × ω × SystemMeta)
  | [], w, m => .ok ([], w, m)
  | p :: ps, w, m =>
    match p.init_state w m with
    | .error e => .error e
    | .ok (s, w1, m1) =>
      match tupleInit ps w1 m1 with
      | .error e => .error e
      | .ok (ss, w2, m2) => .ok (s :: ss, w2, m2)

/-- `impl_system_param_tuple`, `new_archetype`: invoke each member on its
own state in declaration order, threading the metadata. -/
def tupleNewArchetype {ω σ V : Type} :
    List (ParamKind ω σ V) → List σ → Nat → SystemMeta →
      List σ × SystemMeta
  | p :: ps, s :: ss, arch, m =>
    let (s1, m1) := p.new_archetype s arch m
    let (ss1, m2) := tupleNewArchetype ps ss arch m1
    (s1 :: ss1, m2)
  | _, _, _, m => ([], m)

/-- `impl_system_param_tuple`, `apply`: invoke each member on its own state
in declaration order, threading the world. -/
def tupleApply {ω σ V : Type} :
    List (ParamKind ω σ V) → List σ → SystemMeta → ω → List σ × ω
  | p :: ps, s :: ss, m, w =>
    let (s1, w1) := p.applyBuf s m w
    let (ss1, w2) := tupleApply ps ss m w1
    (s1 :: ss1, w2)
  | _, _, _, w => ([], w)

/-- `impl_system_param_tuple`, `get_param`: materialize each member from its
own state in declaration order, producing the tuple of values. -/
def tupleGet {ω σ V : Type} :
    List (ParamKind ω σ V) → List σ → SystemMeta → ω → Tick → List V
  | p :: ps, s :: ss, m, w, t =>
    p.get_param s m w t :: tupleGet ps ss m w t
  | _, _, _, _, _ => []

end ParamKind

/-- The `StaticSystemParam` wrapper around the wrapped parameter's
materialized item. -/
structure StaticValue (V : Type) where
  inner : V
deriving Repr, DecidableEq

/-- `StaticSystemParam::into_inner`: unwrap the value. -/
def StaticValue.into_inner {V : Type} (v : StaticValue V) : V := v.inner

/-- `<StaticSystemParam as SystemParam>` from the source: every protocol
method delegates verbatim to the wrapped kind `P` (same state type), and
`get_param` wraps `P`'s materialized value. -/
def StaticSystemParam.ofParam {ω σ V : Type} (p : ParamKind ω σ V) :
    ParamKind ω σ (StaticValue V) :=
  { init_state := fun w m => p.init_state w m
    new_archetype := fun s a m => p.new_archetype s a m
    applyBuf := fun s m w => p.applyBuf s m w
    get_param := fun s m w t => ⟨p.get_param s m w t⟩ }

/-- Whether a registration result is the panic branch. -/
def errored {ε α : Type} : Except ε α → Bool
  | .error _ => true
  | .ok _ => false

/-- `t` occurs as a contiguous substring of `s`. -/
def ContainsStr (s t : String) : Prop := t.data <:+: s.data

/-- A parameter kind with prescribed per-member effects, used to observe the
order in which the tuple implementation invokes its members: member `i`
keeps `i` as its state and materialized value, and transforms the threaded
world and metadata by the indexed effect functions. -/
def effectKind {ω : Type} (f : Nat → ω → ω) (g gA : Nat → SystemMeta → SystemMeta)
    (fA : Nat → ω → ω) (i : Nat) : ParamKind ω Nat Nat :=
  { init_state := fun w m => .ok (i, f i w, g i m)
    new_archetype := fun s _ m => (s, gA i m)
    applyBuf := fun s _ w => (s, fA i w)
    get_param := fun s _ _ _ => s }

/-- A parameter kind whose registration always panics. -/
def failingKind : ParamKind Nat Nat Nat :=
  { init_state := fun _ _ => .error "conflict"
    new_archetype := fun s _ m => (s, m)
    applyBuf := fun s _ w => (s, w)
    get_param := fun s _ _ _ => s }

/-- A store whose component-info registry names every component `CompA`. -/
def wW : World := ⟨fun _ => "CompA"⟩

/-- A query state writing (and hence also reading) component `0`, matching
every archetype (one unconstrained filter clause). -/
def wQA : QueryState :=
  ⟨⟨⟨[0], [0], false, false⟩, [AccessFilters.default]⟩, Access.default⟩

/-- A query state writing component `0`, restricted to archetypes holding
marker component `1`. -/
def wQC : QueryState :=
  ⟨⟨⟨[0], [0], false, false⟩, [⟨[1], []⟩]⟩, Access.default⟩

/-- A query state writing component `0`, restricted to archetypes lacking
marker component `1`. -/
def wQD : QueryState :=
  ⟨⟨⟨[0], [0], false, false⟩, [⟨[], [1]⟩]⟩, Access.default⟩

/-- A system metadata on which write access to component `0` is already
declared. -/
def wMetaW : SystemMeta :=
  ⟨"s", ⟨⟨[0], [0], false, false⟩, [⟨⟨[0], [0], false, false⟩, [AccessFilters.default]⟩]⟩,
    ⟨[0], [0], false, false⟩, 0⟩

/-- The system metadata produced by registering `&World` on a fresh system
named `s`. -/
def wMeta1 : SystemMeta :=
  ⟨"s", ⟨⟨[], [], true, false⟩, [⟨⟨[], [], true, false⟩, [⟨[], []⟩]⟩]⟩,
    ⟨[], [], true, false⟩, 0⟩

/-! ## Helper lemmas -/

lemma containsStr_self (t : String) : ContainsStr t t :=
  List.infix_refl _

lemma containsStr_append_left {x t : String} (h : ContainsStr x t)
    (y : String) : ContainsStr (x ++ y) t := by
  unfold ContainsStr at h ⊢
  rw [String.data_append]
  exact h.trans (List.prefix_append _ _).isInfix

lemma containsStr_append_right {y t : String} (h : ContainsStr y t)
    (x : String) : ContainsStr (x ++ y) t := by
  unfold ContainsStr at h ⊢
  rw [String.data_append]
  exact h.trans (List.suffix_append _ _).isInfix

lemma containsStr_joinComma {l : List String} {x : String} (hx : x ∈ l) :
    ContainsStr (joinComma l) x := by
  induction l with
  | nil => cases hx
  | cons a rest ih =>
    cases rest with
    | nil =>
      rcases List.mem_singleton.mp hx with rfl
      exact containsStr_self x
    | cons b bs =>
      rcases List.mem_cons.mp hx with rfl | hmem
      · exact containsStr_append_left
          (containsStr_append_left (containsStr_self x) ", ") _
      · exact containsStr_append_right (ih hmem) _

lemma contains_of_mem {xs : List Nat} {c : Nat} (h : c ∈ xs) :
    xs.contains c = true :=
  List.elem_eq_true_of_mem h

lemma listDisjoint_eq_false {xs ys : List Nat} {c : Nat} (hx : c ∈ xs)
    (hy : ys.contains c = true) : Access.listDisjoint xs ys = false := by
  unfold Access.listDisjoint
  cases hall : xs.all (fun x => !ys.contains x) with
  | false => rfl
  | true =>
    rw [List.all_eq_true] at hall
    have hc := hall c hx
    rw [hy] at hc
    simp at hc

lemma isEmpty_eq_false_of_mem {α : Type} {l : List α} {c : α} (h : c ∈ l) :
    l.isEmpty = false := by
  cases l with
  | nil => cases h
  | cons a as => rfl

lemma foldr_conflicts_mem {l : List FilteredAccess} {cur fa : FilteredAccess}
    {c : ComponentId} (hmem : fa ∈ l) (hc : c ∈ fa.get_conflicts cur) :
    c ∈ l.foldr (fun g acc => g.get_conflicts cur ++ acc) [] := by
  induction l with
  | nil => cases hmem
  | cons a rest ih =>
    rcases List.mem_cons.mp hmem with rfl | hmem'
    · exact List.mem_append_left _ hc
    · exact List.mem_append_right _ (ih hmem')

lemma get_conflicts_single_mem {s : FilteredAccessSet}
    {cur fa : FilteredAccess} {c : ComponentId}
    (hmem : fa ∈ s.filtered_accesses) (hc : c ∈ fa.get_conflicts cur) :
    c ∈ s.get_conflicts_single cur :=
  foldr_conflicts_mem hmem hc

lemma assert_eq_some_of_conflicts {system_name query_type filter_type : String}
    {system_access : FilteredAccessSet} {current : FilteredAccess}
    {world : World}
    (h : (system_access.get_conflicts_single current).isEmpty = false) :
    assert_component_access_compatibility system_name query_type filter_type
        system_access current world =
      some (queryConflictMsg query_type filter_type system_name
        (joinComma ((system_access.get_conflicts_single current).map
          world.componentName))) := by
  unfold assert_component_access_compatibility
  simp only [h, Bool.false_eq_true, if_false]

lemma query_init_errored_of_conflicts {world : World} {meta : SystemMeta}
    {qt ft : String} {st : QueryState}
    (h : (meta.component_access_set.get_conflicts_single
      st.component_access).isEmpty = false) :
    errored (Query.init_state world meta qt ft st) = true := by
  unfold Query.init_state
  rw [assert_eq_some_of_conflicts h]
  rfl

lemma query_init_ok_of_no_conflicts {world : World} {meta : SystemMeta}
    {qt ft : String} {st : QueryState}
    (h : (meta.component_access_set.get_conflicts_single
      st.component_access).isEmpty = true) :
    Query.init_state world meta qt ft st = .ok (st,
      { meta with
        component_access_set :=
          meta.component_access_set.add st.component_access
        archetype_component_access :=
          meta.archetype_component_access.extend
            st.archetype_component_access }) := by
  unfold Query.init_state assert_component_access_compatibility
  simp only [h, if_true]

lemma query_init_error_of_conflicts {world : World} {meta : SystemMeta}
    {qt ft : String} {st : QueryState}
    (h : (meta.component_access_set.get_conflicts_single
      st.component_access).isEmpty = false) :
    Query.init_state world meta qt ft st = .error
      (queryConflictMsg qt ft meta.name
        (joinComma ((meta.component_access_set.get_conflicts_single
          st.component_access).map world.componentName)), meta) := by
  unfold Query.init_state
  rw [assert_eq_some_of_conflicts h]

lemma foldr_conflicts_ne_nil {l : List FilteredAccess} {cur fa : FilteredAccess}
    (hmem : fa ∈ l) (h : fa.get_conflicts cur ≠ []) :
    l.foldr (fun g acc => g.get_conflicts cur ++ acc) [] ≠ [] := by
  induction l with
  | nil => cases hmem
  | cons a rest ih =>
    rcases List.mem_cons.mp hmem with rfl | hmem'
    · simp only [List.foldr]
      intro hc
      exact h (List.append_eq_nil.mp hc).1
    · simp only [List.foldr]
      intro hc
      exact ih hmem' (List.append_eq_nil.mp hc).2

lemma isEmpty_eq_false_of_ne_nil {α : Type} {l : List α} (h : l ≠ []) :
    l.isEmpty = false := by
  cases l with
  | nil => exact absurd rfl h
  | cons a as => rfl

lemma is_empty_decl_eq_false_of_has_concrete {a : Access}
    (h : a.has_concrete = true) : a.is_empty_decl = false := by
  unfold Access.has_concrete at h
  unfold Access.is_empty_decl
  cases h1 : a.reads_and_writes.isEmpty <;>
    cases h2 : a.writes.isEmpty <;>
      simp [h1, h2] at h ⊢

lemma append_concrete_ne_nil {a : Access} (h : a.has_concrete = true) :
    a.reads_and_writes ++ a.writes ≠ [] := by
  unfold Access.has_concrete at h
  intro hc
  rcases List.append_eq_nil.mp hc with ⟨h1, h2⟩
  rw [h1, h2] at h
  simp at h

lemma listDisjoint_nil (xs : List Nat) : Access.listDisjoint xs [] = true :=
  List.all_eq_true.mpr (fun _ _ => rfl)

lemma ruled_out_by_default_eq_false (a : AccessFilters) :
    a.is_ruled_out_by AccessFilters.default = false := by
  simp [AccessFilters.is_ruled_out_by, AccessFilters.default, listDisjoint_nil]

lemma default_ruled_out_by_eq_false (b : AccessFilters) :
    AccessFilters.default.is_ruled_out_by b = false := by
  simp [AccessFilters.is_ruled_out_by, AccessFilters.default,
    Access.listDisjoint]

lemma all_pairs_readall_right {l : List AccessFilters}
    (h : l.isEmpty = false) :
    (l.all fun a => [AccessFilters.default].all fun b =>
      a.is_ruled_out_by b) = false := by
  cases l with
  | nil => simp at h
  | cons a as =>
    simp only [List.all_cons, List.all_nil, Bool.and_true,
      ruled_out_by_default_eq_false, Bool.false_and]

lemma all_pairs_readall_left {l : List AccessFilters}
    (h : l.isEmpty = false) :
    ([AccessFilters.default].all fun a => l.all fun b =>
      a.is_ruled_out_by b) = false := by
  cases l with
  | nil => simp at h
  | cons b bs =>
    simp only [List.all_cons, List.all_nil, Bool.and_true,
      default_ruled_out_by_eq_false, Bool.false_and]

lemma world_param_errored_of_reads_all {m : SystemMeta}
    (h : m.archetype_component_access.reads_all = true) :
    errored (WorldParam.init_state m) = true := by
  unfold WorldParam.init_state
  have hc : m.archetype_component_access.is_compatible
      Access.default.read_all = false := by
    unfold Access.is_compatible
    rw [h]
    simp [Access.read_all, Access.default, Access.is_empty_decl]
  simp [hc, errored]

lemma readall_conflicts_concrete {st : QueryState}
    (hconc : st.component_access.access.has_concrete = true)
    (hfs : st.component_access.filter_sets.isEmpty = false) :
    FilteredAccess.default.read_all.get_conflicts st.component_access
      ≠ [] := by
  have hic : FilteredAccess.default.read_all.is_compatible
      st.component_access = false := by
    unfold FilteredAccess.is_compatible
    have hfilters : ((FilteredAccess.default.read_all).filter_sets.all
        fun a => st.component_access.filter_sets.all fun b =>
          a.is_ruled_out_by b) = false := by
      show ([AccessFilters.default].all fun a =>
        st.component_access.filter_sets.all fun b =>
          a.is_ruled_out_by b) = false
      exact all_pairs_readall_left hfs
    rw [hfilters, Bool.or_false]
    exact is_empty_decl_eq_false_of_has_concrete hconc
  unfold FilteredAccess.get_conflicts
  rw [hic]
  simp only [Bool.false_eq_true, if_false]
  exact append_concrete_ne_nil hconc

lemma query_after_readall_errored {world : World} {m : SystemMeta}
    {qt ft : String} {st : QueryState}
    (hmem : FilteredAccess.default.read_all ∈
      m.component_access_set.filtered_accesses)
    (hconc : st.component_access.access.has_concrete = true)
    (hfs : st.component_access.filter_sets.isEmpty = false) :
    errored (Query.init_state world m qt ft st) = true := by
  apply query_init_errored_of_conflicts
  apply isEmpty_eq_false_of_ne_nil
  exact foldr_conflicts_ne_nil hmem (readall_conflicts_concrete hconc hfs)

lemma tupleInit_effect {ω : Type} (f : Nat → ω → ω)
    (g gA : Nat → SystemMeta → SystemMeta) (fA : Nat → ω → ω)
    (L : List Nat) (w : ω) (m : SystemMeta) :
    ParamKind.tupleInit (L.map (effectKind f g gA fA)) w m =
      .ok (L, L.foldl (fun w i => f i w) w, L.foldl (fun m i => g i m) m) := by
  induction L generalizing w m with
  | nil => rfl
  | cons a L ih =>
    simp only [List.map_cons, ParamKind.tupleInit, effectKind, List.foldl_cons,
      ih]

lemma tupleNewArchetype_effect {ω : Type} (f : Nat → ω → ω)
    (g gA : Nat → SystemMeta → SystemMeta) (fA : Nat → ω → ω)
    (L : List Nat) (arch : Nat) (m : SystemMeta) :
    ParamKind.tupleNewArchetype (L.map (effectKind f g gA fA)) L arch m =
      (L, L.foldl (fun m i => gA i m) m) := by
  induction L generalizing m with
  | nil => rfl
  | cons a L ih =>
    simp only [List.map_cons, ParamKind.tupleNewArchetype, effectKind,
      List.foldl_cons, ih]

lemma tupleApply_effect {ω : Type} (f : Nat → ω → ω)
    (g gA : Nat → SystemMeta → SystemMeta) (fA : Nat → ω → ω)
    (L : List Nat) (m : SystemMeta) (w : ω) :
    ParamKind.tupleApply (L.map (effectKind f g gA fA)) L m w =
      (L, L.foldl (fun w i => fA i w) w) := by
  induction L generalizing w with
  | nil => rfl
  | cons a L ih =>
    simp only [List.map_cons, ParamKind.tupleApply, effectKind,
      List.foldl_cons, ih]

lemma tupleGet_effect {ω : Type} (f : Nat → ω → ω)
    (g gA : Nat → SystemMeta → SystemMeta) (fA : Nat → ω → ω)
    (L : List Nat) (m : SystemMeta) (w : ω) (t : Tick) :
    ParamKind.tupleGet (L.map (effectKind f g gA fA)) L m w t = L := by
  induction L with
  | nil => rfl
  | cons a L ih =>
    simp only [List.map_cons, ParamKind.tupleGet, effectKind, ih]

lemma tupleInit_error_after_prefix {ω σ V : Type}
    (ps : List (ParamKind ω σ V)) (p : ParamKind ω σ V)
    (rest : List (ParamKind ω σ V)) (w : ω) (m : SystemMeta) (ss : List σ)
    (w1 : ω) (m1 : SystemMeta) (e : String)
    (hok : ParamKind.tupleInit ps w m = .ok (ss, w1, m1))
    (herr : p.init_state w1 m1 = .error e) :
    ParamKind.tupleInit (ps ++ p :: rest) w m = .error e := by
  induction ps generalizing w m ss with
  | nil =>
    simp only [ParamKind.tupleInit, Except.ok.injEq, Prod.mk.injEq] at hok
    obtain ⟨_, hw, hm⟩ := hok
    subst hw; subst hm
    simp only [List.nil_append, ParamKind.tupleInit, herr]
  | cons q ps ih =>
    simp only [ParamKind.tupleInit] at hok
    simp only [List.cons_append, ParamKind.tupleInit]
    cases hq : q.init_state w m with
    | error e' =>
      rw [hq] at hok
      simp at hok
    | ok x =>
      obtain ⟨s0, w0, m0⟩ := x
      rw [hq] at hok
      simp only [] at hok ⊢
      cases hrest : ParamKind.tupleInit ps w0 m0 with
      | error e' =>
        rw [hrest] at hok
        simp at hok
      | ok y =>
        obtain ⟨ss0, w0', m0'⟩ := y
        rw [hrest] at hok
        simp only [Except.ok.injEq, Prod.mk.injEq] at hok
        obtain ⟨_, hw, hm⟩ := hok
        subst hw; subst hm
        simp only [List.append_eq]
        rw [ih w0 m0 ss0 hrest]

lemma queryConflictMsg_contains_query_type (qt ft sn acc : String) :
    ContainsStr (queryConflictMsg qt ft sn acc) qt := by
  unfold queryConflictMsg
  exact containsStr_append_left (containsStr_append_left
    (containsStr_append_left (containsStr_append_left
      (containsStr_append_left (containsStr_append_left
        (containsStr_append_left
          (containsStr_append_right (containsStr_self qt) _) _) _) _) _) _) _) _

lemma queryConflictMsg_contains_filter_type (qt ft sn acc : String) :
    ContainsStr (queryConflictMsg qt ft sn acc) ft := by
  unfold queryConflictMsg
  exact containsStr_append_left (containsStr_append_left
    (containsStr_append_left (containsStr_append_left
      (containsStr_append_left
        (containsStr_append_right (containsStr_self ft) _) _) _) _) _) _

lemma queryConflictMsg_contains_system_name (qt ft sn acc : String) :
    ContainsStr (queryConflictMsg qt ft sn acc) sn := by
  unfold queryConflictMsg
  exact containsStr_append_left (containsStr_append_left
    (containsStr_append_left
      (containsStr_append_right (containsStr_self sn) _) _) _) _

lemma queryConflictMsg_contains_of_accesses {acc t : String}
    (h : ContainsStr acc t) (qt ft sn : String) :
    ContainsStr (queryConflictMsg qt ft sn acc) t := by
  unfold queryConflictMsg
  exact containsStr_append_left (containsStr_append_right h _) _

set_option maxRecDepth 4000 in
lemma queryConflictMsg_contains_without (qt ft sn acc : String) :
    ContainsStr (queryConflictMsg qt ft sn acc) "Without" := by
  unfold queryConflictMsg
  have h : ("Without".data <:+: " in a way that conflicts with a previous system parameter. Consider using `Without<T>` to create disjoint Queries or merging conflicting Queries into a `ParamSet`.".data) := by decide
  exact containsStr_append_right h _

set_option maxRecDepth 4000 in
lemma queryConflictMsg_contains_paramset (qt ft sn acc : String) :
    ContainsStr (queryConflictMsg qt ft sn acc) "ParamSet" := by
  unfold queryConflictMsg
  have h : ("ParamSet".data <:+: " in a way that conflicts with a previous system parameter. Consider using `Without<T>` to create disjoint Queries or merging conflicting Queries into a `ParamSet`.".data) := by decide
  exact containsStr_append_right h _

/-! ## Claim theorems -/

/-- Claim C4: Local state is isolated per system — after system X writes 42
into its local, running system Y (with any body) leaves X observing 42 on
its re-run, and Y's local evolves from Y's own prior state only, never
receiving the value X wrote. -/
theorem local_state_isolated_per_system (g : Nat → Nat)
    (s0 : TwoSystemLocals Nat) :
    Local.get_param (runSystemY g (runSystemX (fun _ => 42) s0)).x_state = 42 ∧
    (runSystemX (fun v => v) (runSystemY g (runSystemX (fun _ => 42) s0))).x_state
      = 42 ∧
    (runSystemX (fun _ => 42) s0).y_state = s0.y_state ∧
    (runSystemY g (runSystemX (fun _ => 42) s0)).y_state = g s0.y_state :=
  ⟨rfl, rfl, rfl, rfl⟩

/-- Claim C5: a mutation queued into a `Deferred` buffer during a system run
leaves the store unchanged — `get_param` only hands out the private buffer
state — and the mutation becomes visible in the store exactly when `apply`
is invoked. -/
theorem deferred_mutation_invisible_until_apply {σ : Type}
    (buf : CommandBuffer σ) (m : σ → σ) (store : σ) :
    Deferred.get_param buf = buf ∧
    Deferred.runQueue (fun b => b ++ [m]) buf store = (buf ++ [m], store) ∧
    (Deferred.applyParam CommandBuffer.flush (buf ++ [m]) store).2 =
      m (buf.foldl (fun st f => f st) store) := by
  refine ⟨rfl, rfl, ?_⟩
  show (buf ++ [m]).foldl (fun st f => f st) store = _
  rw [List.foldl_append]
  rfl

/-- Claim C6: flushing a `Deferred` buffer is idempotent — the first `apply`
clears the buffer, so a second `apply` with nothing queued in between
changes neither the buffer nor the store. -/
theorem deferred_flush_idempotent {σ : Type} (buf : CommandBuffer σ)
    (store : σ) :
    Deferred.applyParam CommandBuffer.flush
        (Deferred.applyParam CommandBuffer.flush buf store).1
        (Deferred.applyParam CommandBuffer.flush buf store).2 =
      Deferred.applyParam CommandBuffer.flush buf store :=
  rfl

/-- Claim C7: for a system whose previous run recorded tick `T0` and which is
materialized at current change tick `T` with `T0 < T`, the
`SystemChangeTick` produced by `get_param` reports `last_run = T0` and
`this_run = T`. -/
theorem system_change_tick_snapshot (meta : SystemMeta) (t : Tick)
    (_h : meta.last_run < t) :
    (SystemChangeTick.get_param meta t).last_run = meta.last_run ∧
    (SystemChangeTick.get_param meta t).this_run = t :=
  ⟨rfl, rfl⟩

/-- Witness for C7 at a concrete system metadata and tick. -/
theorem system_change_tick_snapshot_witness :
    (SystemMeta.new "s").last_run < 3 ∧
    (SystemChangeTick.get_param (SystemMeta.new "s") 3).last_run =
      (SystemMeta.new "s").last_run ∧
    (SystemChangeTick.get_param (SystemMeta.new "s") 3).this_run = 3 :=
  ⟨by decide, system_change_tick_snapshot (SystemMeta.new "s") 3 (by decide)⟩

/-- Claim C9: `StaticSystemParam` is observationally equal to the wrapped
parameter — every protocol method produces the same state, metadata and
world effects, and `get_param` produces exactly the wrapped kind's
materialized value inside the wrapper. -/
theorem static_system_param_delegates {ω σ V : Type} (p : ParamKind ω σ V)
    (w : ω) (m : SystemMeta) (s : σ) (a : Nat) (t : Tick) :
    (StaticSystemParam.ofParam p).init_state w m = p.init_state w m ∧
    (StaticSystemParam.ofParam p).new_archetype s a m = p.new_archetype s a m ∧
    (StaticSystemParam.ofParam p).applyBuf s m w = p.applyBuf s m w ∧
    (StaticSystemParam.ofParam p).get_param s m w t =
      ⟨p.get_param s m w t⟩ ∧
    ((StaticSystemParam.ofParam p).get_param s m w t).into_inner =
      p.get_param s m w t :=
  ⟨rfl, rfl, rfl, rfl, rfl⟩

/-- Claim C3: two queries that both request write access to the same
component but whose filter clauses mutually rule each other out (disjoint
matched archetype sets) both register without a conflict being reported. -/
theorem disjoint_filtered_queries_register (world : World)
    (n qtA ftA qtB ftB : String) (qa qb : QueryState) (c : ComponentId)
    (_hwa : c ∈ qa.component_access.access.writes)
    (_hwb : c ∈ qb.component_access.access.writes)
    (hdisj : (qa.component_access.filter_sets.all fun fa =>
        qb.component_access.filter_sets.all fun fb =>
          fa.is_ruled_out_by fb) = true) :
    ∃ m1 m2,
      Query.init_state world (SystemMeta.new n) qtA ftA qa = .ok (qa, m1) ∧
      Query.init_state world m1 qtB ftB qb = .ok (qb, m2) := by
  have hcompat :
      FilteredAccess.is_compatible qa.component_access qb.component_access
        = true := by
    unfold FilteredAccess.is_compatible
    rw [hdisj, Bool.or_true]
  have hconf :
      FilteredAccess.get_conflicts qa.component_access qb.component_access
        = [] := by
    unfold FilteredAccess.get_conflicts
    rw [hcompat]
    rfl
  have hempty :
      ((FilteredAccessSet.default.add
          qa.component_access).get_conflicts_single
        qb.component_access).isEmpty = true := by
    show (FilteredAccess.get_conflicts qa.component_access
        qb.component_access ++ []).isEmpty = true
    rw [hconf]
    rfl
  exact ⟨_, _, query_init_ok_of_no_conflicts rfl,
    query_init_ok_of_no_conflicts hempty⟩

/-- Witness for C3: two write queries on component 0 whose filters require,
respectively exclude, the marker component 1. -/
theorem disjoint_filtered_queries_register_witness :
    (0 ∈ wQC.component_access.access.writes ∧
     0 ∈ wQD.component_access.access.writes ∧
     (wQC.component_access.filter_sets.all fun fa =>
        wQD.component_access.filter_sets.all fun fb =>
          fa.is_ruled_out_by fb) = true) ∧
    ∃ m1 m2,
      Query.init_state wW (SystemMeta.new "sys") "QC" "FC" wQC = .ok (wQC, m1) ∧
      Query.init_state wW m1 "QD" "FD" wQD = .ok (wQD, m2) :=
  ⟨⟨by decide, by decide, by decide⟩,
    disjoint_filtered_queries_register wW "sys" "QC" "FC" "QD" "FD" wQC wQD 0
      (by decide) (by decide) (by decide)⟩

/-- Claim C10: `Query` registration is atomic on failure — when
`Query::init_state` panics because of an access conflict, the system
metadata is exactly as it was before the call, since the conflict check
precedes every mutation of the metadata. -/
theorem query_registration_atomic_on_failure (world : World)
    (meta : SystemMeta) (qt ft : String) (st : QueryState) (msg : String)
    (meta_err : SystemMeta)
    (h : Query.init_state world meta qt ft st = .error (msg, meta_err)) :
    meta_err = meta := by
  unfold Query.init_state at h
  cases hass : assert_component_access_compatibility meta.name qt ft
      meta.component_access_set st.component_access world with
  | none =>
    rw [hass] at h
    cases h
  | some m =>
    rw [hass] at h
    simp only [Except.error.injEq, Prod.mk.injEq] at h
    exact h.2.symm

/-- Witness for C10: a concrete conflicting registration; the metadata
carried out of the panic equals the metadata passed in. -/
theorem query_registration_atomic_on_failure_witness :
    Query.init_state wW wMetaW "Q" "F" wQA =
      .error ("error[B0001]: Query<Q, F> in system s accesses component(s) CompA, CompA in a way that conflicts with a previous system parameter. Consider using `Without<T>` to create disjoint Queries or merging conflicting Queries into a `ParamSet`.",
        wMetaW) ∧
    wMetaW = wMetaW :=
  ⟨rfl, query_registration_atomic_on_failure wW wMetaW "Q" "F" wQA
    "error[B0001]: Query<Q, F> in system s accesses component(s) CompA, CompA in a way that conflicts with a previous system parameter. Consider using `Without<T>` to create disjoint Queries or merging conflicting Queries into a `ParamSet`."
    wMetaW rfl⟩

/-- Claim C1: two queries of one system that both request write access to
component `c` and whose filter clauses do not rule each other out (they can
match a common archetype) make the second registration panic, and the
diagnostic names the conflicting component, the query and filter type
names, the system name, and the `Without` / `ParamSet` remediation hint. -/
theorem conflicting_queries_panic_with_diagnostic (world : World)
    (n qtA ftA qtB ftB : String) (qa qb : QueryState) (c : ComponentId)
    (hwa : c ∈ qa.component_access.access.writes)
    (_hra : c ∈ qa.component_access.access.reads_and_writes)
    (_hwb : c ∈ qb.component_access.access.writes)
    (hrb : c ∈ qb.component_access.access.reads_and_writes)
    (hfa1 : qa.component_access.access.reads_all = false)
    (hfa2 : qa.component_access.access.writes_all = false)
    (hfb1 : qb.component_access.access.reads_all = false)
    (hfb2 : qb.component_access.access.writes_all = false)
    (hover : (qa.component_access.filter_sets.all fun fa =>
        qb.component_access.filter_sets.all fun fb =>
          fa.is_ruled_out_by fb) = false) :
    ∃ m1, Query.init_state world (SystemMeta.new n) qtA ftA qa
        = .ok (qa, m1) ∧
      ∃ msg, Query.init_state world m1 qtB ftB qb = .error (msg, m1) ∧
        ContainsStr msg (world.componentName c) ∧ ContainsStr msg qtB ∧
        ContainsStr msg ftB ∧ ContainsStr msg n ∧
        ContainsStr msg "Without" ∧ ContainsStr msg "ParamSet" := by
  have hcompat :
      FilteredAccess.is_compatible qa.component_access qb.component_access
        = false := by
    unfold FilteredAccess.is_compatible Access.is_compatible
    rw [hfa1, hfa2, hfb1, hfb2, hover,
      listDisjoint_eq_false hwa (contains_of_mem hrb)]
    simp
  have hcmem :
      c ∈ FilteredAccess.get_conflicts qa.component_access
        qb.component_access := by
    unfold FilteredAccess.get_conflicts
    rw [hcompat]
    simp only [Bool.false_eq_true, if_false]
    unfold Access.get_conflicts
    rw [hfa1, hfa2, hfb1, hfb2]
    simp only [Bool.or_self, Bool.false_eq_true, if_false]
    exact List.mem_append_left _
      (List.mem_filter.mpr ⟨hwa, contains_of_mem hrb⟩)
  have hsetmem :
      c ∈ (FilteredAccessSet.default.add
          qa.component_access).get_conflicts_single qb.component_access :=
    get_conflicts_single_mem (by
      show qa.component_access ∈ [] ++ [qa.component_access]
      simp) hcmem
  have hne :
      ((FilteredAccessSet.default.add
          qa.component_access).get_conflicts_single
        qb.component_access).isEmpty = false :=
    isEmpty_eq_false_of_mem hsetmem
  refine ⟨_, query_init_ok_of_no_conflicts rfl, _,
    query_init_error_of_conflicts hne, ?_, ?_, ?_, ?_, ?_, ?_⟩
  · exact queryConflictMsg_contains_of_accesses
      (containsStr_joinComma (List.mem_map_of_mem _ hsetmem)) _ _ _
  · exact queryConflictMsg_contains_query_type _ _ _ _
  · exact queryConflictMsg_contains_filter_type _ _ _ _
  · exact queryConflictMsg_contains_system_name _ _ _ _
  · exact queryConflictMsg_contains_without _ _ _ _
  · exact queryConflictMsg_contains_paramset _ _ _ _

/-- Witness for C1: two identical write queries on component 0 with
unconstrained filters; the second registration panics with the full
diagnostic. -/
theorem conflicting_queries_panic_with_diagnostic_witness :
    ((0 ∈ wQA.component_access.access.writes ∧
      0 ∈ wQA.component_access.access.reads_and_writes) ∧
     wQA.component_access.access.reads_all = false ∧
     wQA.component_access.access.writes_all = false ∧
     (wQA.component_access.filter_sets.all fun fa =>
        wQA.component_access.filter_sets.all fun fb =>
          fa.is_ruled_out_by fb) = false) ∧
    ∃ m1, Query.init_state wW (SystemMeta.new "sys2") "QA" "FA" wQA
        = .ok (wQA, m1) ∧
      ∃ msg, Query.init_state wW m1 "QB" "FB" wQA = .error (msg, m1) ∧
        ContainsStr msg (wW.componentName 0) ∧ ContainsStr msg "QB" ∧
        ContainsStr msg "FB" ∧ ContainsStr msg "sys2" ∧
        ContainsStr msg "Without" ∧ ContainsStr msg "ParamSet" :=
  ⟨⟨⟨by decide, by decide⟩, by decide, by decide, by decide⟩,
    conflicting_queries_panic_with_diagnostic wW "sys2" "QA" "FA" "QB" "FB"
      wQA wQA 0 (by decide) (by decide) (by decide) (by decide) (by decide)
      (by decide) (by decide) (by decide) (by decide)⟩

/-- Claim C2: the read-all declaration of `&World` is compatible only with
an empty prior declaration — registering it over any already declared
access panics — and once `&World` is registered, registering it again or
registering any query with declared access panics as well. -/
theorem world_param_read_all_exclusive (meta : SystemMeta) :
    ((meta.archetype_component_access.is_empty_decl = false ∨
      meta.component_access_set.filtered_accesses.any (fun fa =>
        fa.access.has_concrete && !fa.access.reads_all &&
          !fa.access.writes_all && !fa.filter_sets.isEmpty) = true) →
      errored (WorldParam.init_state meta) = true) ∧
    ∀ meta', WorldParam.init_state meta = .ok meta' →
      errored (WorldParam.init_state meta') = true ∧
      ∀ (world : World) (qt ft : String) (st : QueryState),
        st.component_access.access.has_concrete = true →
        st.component_access.filter_sets.isEmpty = false →
        errored (Query.init_state world meta' qt ft st) = true := by
  constructor
  · intro h
    unfold WorldParam.init_state
    cases hc1 : meta.archetype_component_access.is_compatible
        Access.default.read_all with
    | false => simp [hc1, errored]
    | true =>
      rcases h with h1 | h2
      · exfalso
        unfold Access.is_compatible at hc1
        revert hc1
        cases hra : (meta.archetype_component_access.reads_all ||
            meta.archetype_component_access.writes_all) with
        | true =>
          simp [hra, Access.read_all, Access.default, Access.is_empty_decl]
        | false =>
          intro hc1
          simp [hra, Access.read_all, Access.default] at hc1
          rw [hc1] at h1
          cases h1
      · obtain ⟨fa, hmem, hprops⟩ := List.any_eq_true.mp h2
        simp only [Bool.and_eq_true, Bool.not_eq_true'] at hprops
        obtain ⟨⟨⟨hconc, hfra⟩, hfwa⟩, hfs⟩ := hprops
        have hfsne : fa.filter_sets.isEmpty = false := hfs
        have hic : fa.is_compatible FilteredAccess.default.read_all
            = false := by
          unfold FilteredAccess.is_compatible
          have hfilters : (fa.filter_sets.all fun a =>
              (FilteredAccess.default.read_all).filter_sets.all fun b =>
                a.is_ruled_out_by b) = false := by
            show (fa.filter_sets.all fun a =>
              [AccessFilters.default].all fun b =>
                a.is_ruled_out_by b) = false
            exact all_pairs_readall_right hfsne
          rw [hfilters, Bool.or_false]
          unfold Access.is_compatible
          rw [hfra, hfwa]
          exact is_empty_decl_eq_false_of_has_concrete hconc
        have hfc : fa.get_conflicts FilteredAccess.default.read_all
            ≠ [] := by
          unfold FilteredAccess.get_conflicts
          rw [hic]
          simp only [Bool.false_eq_true, if_false]
          unfold Access.get_conflicts
          rw [hfra, hfwa]
          exact append_concrete_ne_nil hconc
        have hEmp : (meta.component_access_set.get_conflicts_single
            FilteredAccess.default.read_all).isEmpty = false :=
          isEmpty_eq_false_of_ne_nil (foldr_conflicts_ne_nil hmem hfc)
        simp [hEmp, errored, hc1]
  · intro meta' hok
    simp only [WorldParam.init_state] at hok
    split at hok
    · cases hok
    · split at hok
      · cases hok
      · simp only [Except.ok.injEq] at hok
        subst hok
        constructor
        · apply world_param_errored_of_reads_all
          simp [Access.extend, Access.read_all, Access.default, Bool.or_true]
        · intro world qt ft st hconc hfs
          apply query_after_readall_errored _ hconc hfs
          simp [FilteredAccessSet.add]

/-- Witness for C2: a metadata with a declared write rejects `&World`, and
after `&World` registers on a fresh system, both a second `&World` and a
query with declared access are rejected. -/
theorem world_param_read_all_exclusive_witness :
    (wMetaW.archetype_component_access.is_empty_decl = false ∧
     errored (WorldParam.init_state wMetaW) = true) ∧
    (WorldParam.init_state (SystemMeta.new "s") = .ok wMeta1 ∧
     errored (WorldParam.init_state wMeta1) = true ∧
     errored (Query.init_state wW wMeta1 "Q" "F" wQA) = true) :=
  ⟨⟨by decide, (world_param_read_all_exclusive wMetaW).1 (Or.inl (by decide))⟩,
   ⟨rfl,
    ((world_param_read_all_exclusive (SystemMeta.new "s")).2 wMeta1 rfl).1,
    ((world_param_read_all_exclusive (SystemMeta.new "s")).2 wMeta1 rfl).2
      wW "Q" "F" wQA (by decide) (by decide)⟩⟩

/-- Claim C8: tuple composition threads `init_state`, `new_archetype`,
`apply` and `get_param` across its members strictly in declaration
(positional) order — the world and metadata effects compose as the left
fold over members `0, 1, ..., n-1` and the materialized values keep the
positional order — and when a member's registration conflicts, the error
reported is that of the first failing member, raised during its own
`init_state` against the metadata accumulated from the earlier members. -/
theorem tuple_members_processed_in_declaration_order {ω : Type}
    (f fA : Nat → ω → ω) (g gA : Nat → SystemMeta → SystemMeta)
    (n : Nat) (_hn : n ≤ 16) (w : ω) (m : SystemMeta) (arch : Nat)
    (t : Tick) :
    (ParamKind.tupleInit ((List.range n).map (effectKind f g gA fA)) w m =
      .ok (List.range n, (List.range n).foldl (fun w i => f i w) w,
        (List.range n).foldl (fun m i => g i m) m)) ∧
    (ParamKind.tupleNewArchetype
        ((List.range n).map (effectKind f g gA fA)) (List.range n) arch m =
      (List.range n, (List.range n).foldl (fun m i => gA i m) m)) ∧
    (ParamKind.tupleApply ((List.range n).map (effectKind f g gA fA))
        (List.range n) m w =
      (List.range n, (List.range n).foldl (fun w i => fA i w) w)) ∧
    (ParamKind.tupleGet ((List.range n).map (effectKind f g gA fA))
        (List.range n) m w t = List.range n) ∧
    ∀ (ps : List (ParamKind ω Nat Nat)) (p : ParamKind ω Nat Nat)
      (rest : List (ParamKind ω Nat Nat)) (ss : List Nat) (w1 : ω)
      (m1 : SystemMeta) (e : String),
      ParamKind.tupleInit ps w m = .ok (ss, w1, m1) →
      p.init_state w1 m1 = .error e →
      ParamKind.tupleInit (ps ++ p :: rest) w m = .error e :=
  ⟨tupleInit_effect f g gA fA (List.range n) w m,
   tupleNewArchetype_effect f g gA fA (List.range n) arch m,
   tupleApply_effect f g gA fA (List.range n) m w,
   tupleGet_effect f g gA fA (List.range n) m w t,
   fun ps p rest ss w1 m1 e hok herr =>
     tupleInit_error_after_prefix ps p rest w m ss w1 m1 e hok herr⟩

/-- Witness for C8: two members with additive world effects register in
order on a fresh system, and a failing member placed after a succeeding one
aborts the registration with its own error. -/
theorem tuple_members_processed_in_declaration_order_witness :
    (2 ≤ 16) ∧
    (ParamKind.tupleInit ((List.range 2).map
        (effectKind (fun i w => w + i) (fun _ m => m) (fun _ m => m)
          (fun i w => w + i))) 0 (SystemMeta.new "s") =
      .ok (List.range 2, (List.range 2).foldl (fun w i => w + i) 0,
        (List.range 2).foldl (fun m _ => m) (SystemMeta.new "s"))) ∧
    (ParamKind.tupleInit
        ([effectKind (fun i w => w + i) (fun _ m => m) (fun _ m => m)
            (fun i w => w + i) 0] ++ failingKind :: []) 0
        (SystemMeta.new "s") = .error "conflict") :=
  ⟨by decide,
   (tuple_members_processed_in_declaration_order
     (fun i w => w + i) (fun i w => w + i) (fun _ m => m) (fun _ m => m)
     2 (by decide) 0 (SystemMeta.new "s") 0 0).1,
   (tuple_members_processed_in_declaration_order
     (fun i w => w + i) (fun i w => w + i) (fun _ m => m) (fun _ m => m)
     2 (by decide) 0 (SystemMeta.new "s") 0 0).2.2.2.2
     [effectKind (fun i w => w + i) (fun _ m => m) (fun _ m => m)
        (fun i w => w + i) 0] failingKind [] [0] (0 + 0)
     (SystemMeta.new "s") "conflict" rfl rfl⟩

end BevyEcs
